import Mathlib

/-!
Shallow embedding of the TicTacToe serial-game client
(`src/client/UI.py` and `src/client/esp32_communication.py`).

Python strings are modelled by `String`, Python lists by `List`,
`None`-able values by `Option`, and an uncaught Python exception by a
`none` result of an `Option`-returning function.  The Tk widget layer is
reduced to the observable button states (a `Bool` grid, `true` meaning
the button is clickable), the back-to-menu button state and the text of
the info label; geometry, fonts and colours carry no game information.
-/

namespace TTT

/-! ### Embeddings of the Python builtins used by the client -/

/-- The characters removed by Python `str.strip()` (ASCII whitespace;
the client's wire traffic is ASCII). -/
def pyWhitespace (c : Char) : Bool :=
  c = ' ' || c = '\t' || c = '\n' || c = '\r' || c = '\u000B' || c = '\u000C'

/-- Python `str.strip()`: drop leading and trailing whitespace. -/
def pyStrip (s : String) : String :=
  String.mk (((s.toList.dropWhile pyWhitespace).reverse.dropWhile pyWhitespace).reverse)

/-- Python `str.endswith(suffix)`. -/
def pyEndsWith (s suffixStr : String) : Bool :=
  suffixStr.toList.isSuffixOf s.toList

/-- Accumulate decimal digits; any non-digit character fails. -/
def pyIntDigitsAux : List Char → Nat → Option Nat
  | [], acc => some acc
  | c :: cs, acc =>
    if c.isDigit then pyIntDigitsAux cs (acc * 10 + (c.toNat - 48)) else none

/-- A non-empty all-digit character run as a number. -/
def pyIntDigits : List Char → Option Nat
  | [] => none
  | cs => pyIntDigitsAux cs 0

/-- Python `int(s)` for optionally signed decimal literals possibly
surrounded by whitespace — the only integers the protocol carries;
`none` models the `ValueError` raised on anything else. -/
def pyInt (s : String) : Option Int :=
  match (pyStrip s).toList with
  | '-' :: cs => (pyIntDigits cs).map fun n => -(n : Int)
  | '+' :: cs => (pyIntDigits cs).map fun n => (n : Int)
  | cs => (pyIntDigits cs).map fun n => (n : Int)

/-- Normalize a Python list index (negative indices count from the end);
`none` models an `IndexError`. -/
def pyIdx (len : Nat) (i : Int) : Option Nat :=
  if 0 ≤ i then
    if i.toNat < len then some i.toNat else none
  else
    if (-i).toNat ≤ len then some (len - (-i).toNat) else none

/-- Python `l[i]`. -/
def pyGet {α : Type} (l : List α) (i : Int) : Option α :=
  (pyIdx l.length i).bind fun n => l[n]?

/-- Python `l[i] = v` (functionally: the updated list). -/
def pySet {α : Type} (l : List α) (i : Int) (v : α) : Option (List α) :=
  (pyIdx l.length i).map fun n => l.set n v

/-- Python `g[x][y]` on a list of lists. -/
def pyGet2 {α : Type} (g : List (List α)) (x y : Int) : Option α :=
  (pyGet g x).bind fun row => pyGet row y

/-- Python `g[x][y] = v` on a list of lists (the row is mutated in
place, i.e. the outer list keeps the same row position). -/
def pySet2 {α : Type} (g : List (List α)) (x y : Int) (v : α) :
    Option (List (List α)) :=
  (pyGet g x).bind fun row =>
    (pySet row y v).bind fun row2 => pySet g x row2

/-- Worker for Python `str.split(sep)` with a one-character separator:
`cur` is the reversed chunk being accumulated. -/
def splitCharsAux (sep : Char) : List Char → List Char → List (List Char)
  | [], cur => [cur.reverse]
  | c :: cs, cur =>
    if c = sep then cur.reverse :: splitCharsAux sep cs []
    else splitCharsAux sep cs (c :: cur)

/-- Python `s.split(sep)` for a one-character separator (the client only
splits on `","`). -/
def pySplit (sep : Char) (s : String) : List String :=
  (splitCharsAux sep s.toList []).map String.mk

/-- Character-level interleaving used by `pyJoin`. -/
def joinChars (sep : Char) : List (List Char) → List Char
  | [] => []
  | [p] => p
  | p :: q :: rest => p ++ sep :: joinChars sep (q :: rest)

/-- Python `sep.join(parts)` for a one-character separator (the client
only joins on `","`). -/
def pyJoin (sep : Char) (parts : List String) : String :=
  String.mk (joinChars sep (parts.map String.toList))

/-- Python `"".join(parts)`. -/
def pyConcat : List String → String
  | [] => ""
  | p :: rest => p ++ pyConcat rest

/-! ### Parsed XML elements

`xml.etree.ElementTree` elements as the client observes them: a tag,
an attribute list, the direct children and the element text. -/

inductive XmlElem where
  | mk (tag : String) (attrs : List (String × String))
       (children : List XmlElem) (text : Option String)

def XmlElem.tag : XmlElem → String
  | .mk t _ _ _ => t

def XmlElem.attrs : XmlElem → List (String × String)
  | .mk _ a _ _ => a

def XmlElem.children : XmlElem → List XmlElem
  | .mk _ _ c _ => c

def XmlElem.text : XmlElem → Option String
  | .mk _ _ _ t => t

/-- Embeds `root.find(tag)`: first direct child with the given tag, `None`
(here `none`) when absent. -/
def XmlElem.findTag (e : XmlElem) (t : String) : Option XmlElem :=
  e.children.find? fun c => c.tag = t

/-- Embeds `elem.attrib.get(key)` (also used embedding `elem.attrib[key]`,
whose `KeyError` on a missing key is the surrounding `none`). -/
def XmlElem.attrGet (e : XmlElem) (k : String) : Option String :=
  (e.attrs.find? fun p => p.1 = k).map Prod.snd

/-! ### The client game state (`TicTacToe.__init__` fields)

`gameover` is `None` at construction, `False` after `start_game` and
`True` after a terminal `game_over`; the code only ever observes it
through `if not self.gameover`, under which `None` and `False` agree, so
both are modelled as `false`.  Buttons are `true` when clickable
(Tk states `normal`/`active`) and `false` when `disabled`. -/

structure GameState where
  game_mode : Option String
  gameover : Bool
  game_result : Option String
  current_player : String
  buttons : List (List Bool)
  board : List (List String)
  info_label : String
  back_button : Bool
deriving DecidableEq, Repr

/-- The fresh 3×3 board `[[" "]*3]*3` built by `__init__`/`start_game`. -/
def fresh_board : List (List String) :=
  [[" ", " ", " "], [" ", " ", " "], [" ", " ", " "]]

/-! ### Game-state operations of `UI.py` -/

/-- The player produced by `'O' if self.current_player == 'X' else 'X'`. -/
def next_player (p : String) : String :=
  if p = "X" then "O" else "X"

/-- Embeds `TicTacToe.change_player` (lines 356-358): toggle the player and
refresh the info label. -/
def change_player (s : GameState) : GameState :=
  { s with current_player := next_player s.current_player,
           info_label := "Current player: " ++ next_player s.current_player }

/-- Embeds `TicTacToe.disable_all_buttons` (lines 348-351). -/
def disable_all_buttons (s : GameState) : GameState :=
  { s with buttons := s.buttons.map fun row => row.map fun _ => false }

/-- Embeds `TicTacToe.create_board` (lines 114-144), reduced to its observable
effect: a freshly built button grid (a cell's button is clickable iff
the cell is empty), the current-player label, and a freshly created
(hence clickable) back button. -/
def create_board (s : GameState) : GameState :=
  { s with buttons := s.board.map fun row => row.map fun c => c == " ",
           info_label := "Current player: " ++ s.current_player,
           back_button := true }

/-- The status dispatch inside `TicTacToe.game_over` (lines 333-343),
as a total function of the extracted status attribute: `"X"`/`"O"`
record a win, `"Draw"` records a draw (each freezing the board by
disabling every button); any other value — including an absent `name`
attribute (`none`) — falls through leaving the state unchanged. -/
def game_over_status (s : GameState) : Option String → GameState
  | some n =>
    if n = "X" || n = "O" then
      disable_all_buttons
        { s with gameover := true,
                 game_result := some ("Player " ++ n ++ " won"),
                 info_label := "Player " ++ n ++ " won" }
    else if n = "Draw" then
      disable_all_buttons
        { s with gameover := true,
                 game_result := some "Draw",
                 info_label := "Draw" }
    else s
  | none => s

/-- Embeds `TicTacToe.game_over` (lines 332-343).  `root.find("status")`
returning `None` makes the `.attrib` access raise (`none` here);
otherwise the status attribute is dispatched. -/
def game_over (s : GameState) (root : XmlElem) : Option GameState :=
  (root.findTag "status").map fun stEl =>
    game_over_status s (stEl.attrGet "name")

/-- The guarded body of `UI.py` lines 284-287, i.e. the cell update of
`handle_move`: when the target cell is empty, toggle the player first
and then place the *toggled* player's mark, disabling that cell's
button; otherwise leave everything unchanged. -/
def handle_move_place (s : GameState) (x y : Int) (cell : String) :
    Option GameState :=
  if cell = " " then
    (pySet2 s.board x y (next_player s.current_player)).bind fun b =>
    (pySet2 s.buttons x y false).bind fun bt =>
    some { change_player s with board := b, buttons := bt }
  else some s

/-- Embeds `TicTacToe.handle_move` (lines 278-290): extract status and
coordinates, apply the cell update, and finally run `game_over`
whenever the status is not `"Continue"`. -/
def handle_move (s : GameState) (root : XmlElem) : Option GameState := do
  let stEl ← root.findTag "status"
  let status := stEl.attrGet "name"
  let mv ← root.findTag "move"
  let xs ← mv.attrGet "x"
  let x ← pyInt xs
  let ys ← mv.attrGet "y"
  let y ← pyInt ys
  let cell ← pyGet2 s.board x y
  let s1 ← handle_move_place s x y cell
  if status ≠ some "Continue" then game_over s1 root else pure s1

/-- The guarded body of `UI.py` lines 316-319, i.e. the cell update of
`process_bot_move`: when the target cell is empty, place the *current*
player's mark, disable that cell's button, and only then toggle the
player; otherwise leave everything unchanged. -/
def process_bot_place (s : GameState) (x y : Int) (cell : String) :
    Option GameState :=
  if cell = " " then
    (pySet2 s.board x y s.current_player).bind fun b =>
    (pySet2 s.buttons x y false).bind fun bt =>
    some (change_player { s with board := b, buttons := bt })
  else some s

/-- The per-frame body of `TicTacToe.process_bot_move` (lines 310-319):
extract status and coordinates and apply the cell update.  Returns the
updated state and the status for the loop's termination test. -/
def bot_move_apply (s : GameState) (root : XmlElem) :
    Option (GameState × Option String) := do
  let stEl ← root.findTag "status"
  let status := stEl.attrGet "name"
  let mv ← root.findTag "move"
  let xs ← mv.attrGet "x"
  let x ← pyInt xs
  let ys ← mv.attrGet "y"
  let y ← pyInt ys
  let cell ← pyGet2 s.board x y
  let s1 ← process_bot_place s x y cell
  pure (s1, status)

/-- The outcome of dispatching one received frame: the resulting state,
the frames still unread on the transport, and how many receive calls
were performed while dispatching. -/
structure DispatchResult where
  state : GameState
  pending : List (Option XmlElem)
  received : Nat

/-- Embeds `TicTacToe.process_bot_move` (lines 306-325): receive one frame per
tick (a parse failure of `ET.fromstring` is an uncaught exception,
`none`), apply the move, and either stop — re-enabling the back
button — on a non-`"Continue"` status or schedule the next tick.
The transport is modelled as the list of frames it will deliver;
an empty list means the next receive blocks forever (`none`). -/
def process_bot_move (s : GameState) :
    List (Option XmlElem) → Option DispatchResult
  | [] => none
  | of :: rest => do
    let root ← of
    let p ← bot_move_apply s root
    if p.2 ≠ some "Continue" then do
      let s2 ← game_over p.1 root
      pure ⟨{ s2 with back_button := true }, rest, 1⟩
    else
      match process_bot_move p.1 rest with
      | none => none
      | some r => pure ⟨r.state, r.pending, r.received + 1⟩

/-- Embeds `TicTacToe.handle_bot_v_bot` (lines 296-299): disable the board and
the back button, then run the bot-observation loop. -/
def handle_bot_v_bot (s : GameState) (pending : List (Option XmlElem)) :
    Option DispatchResult :=
  process_bot_move { disable_all_buttons s with back_button := false } pending

/-- The error message computed at `UI.py` line 266:
`root.text.strip() if root.text else "Unknown error"` — the truthiness
test runs on the *unstripped* text, so only an absent or empty text
yields the default. -/
def error_message (root : XmlElem) : String :=
  match root.text with
  | none => "Unknown error"
  | some t => if t = "" then "Unknown error" else pyStrip t

/-- Embeds `TicTacToe.handle_response` (lines 251-271).  `resp = none` models a
frame `ET.fromstring` cannot parse (the caught `ParseError`); the
`pending` frames are consumed only when a `mode`/`botvbot` response
hands control to the bot-observation loop. -/
def handle_response (s : GameState) (resp : Option XmlElem)
    (pending : List (Option XmlElem)) : Option DispatchResult :=
  match resp with
  | none => some ⟨s, pending, 0⟩
  | some root =>
    if root.tag = "response" then
      match root.attrGet "type" with
      | some "mode" =>
        match root.findTag "mode" with
        | none => none
        | some m =>
          if m.attrGet "name" = some "botvbot" then handle_bot_v_bot s pending
          else some ⟨s, pending, 0⟩
      | some "move" => (handle_move s root).map fun s' => ⟨s', pending, 0⟩
      | some "gameover" => (game_over s root).map fun s' => ⟨s', pending, 0⟩
      | some "error" => some ⟨s, pending, 0⟩
      | _ => some ⟨s, pending, 0⟩
    else some ⟨s, pending, 0⟩

/-- The `<request type="move">` element built by `TicTacToe.send_move`
(lines 232-237). -/
def move_request (player : String) (row col : Nat) : XmlElem :=
  .mk "request" [("type", "move")]
    [.mk "player" [("name", player)] [] none,
     .mk "move" [("x", toString row), ("y", toString col)] [] none]
    none

/-- The outcome of a local-move attempt: resulting state, the requests
written to the transport, the frames still unread, and the number of
receive calls performed. -/
structure MoveOutcome where
  state : GameState
  sent : List XmlElem
  pending : List (Option XmlElem)
  received : Nat

/-- Embeds `TicTacToe.send_move` (lines 232-243): send the move request for the
current player, block for one frame (`resp`), and dispatch it. -/
def send_move (s : GameState) (row col : Nat) (resp : Option XmlElem)
    (pending : List (Option XmlElem)) : Option MoveOutcome := do
  let r ← handle_response s resp pending
  pure ⟨r.state, [move_request s.current_player row col], r.pending, r.received + 1⟩

/-- Embeds `TicTacToe.make_move` (lines 218-224): unconditionally write the
current player's mark into the clicked cell and disable its button,
send the move (receiving and dispatching the reply), and toggle the
player unless the game has ended. -/
def make_move (s : GameState) (row col : Nat) (resp : Option XmlElem)
    (pending : List (Option XmlElem)) : Option MoveOutcome := do
  let b ← pySet2 s.board row col s.current_player
  let bt ← pySet2 s.buttons row col false
  let s1 : GameState := { s with board := b, buttons := bt }
  let o ← send_move s1 row col resp pending
  let s2 := if o.state.gameover = false then change_player o.state else o.state
  pure { o with state := s2 }

/-- A click on a board cell: Tk only invokes the `command` bound at
`UI.py` line 135 when the button is in a clickable state, so a click on
a disabled button leaves everything unchanged and writes nothing to the
transport. -/
def clickCell (s : GameState) (row col : Nat) (resp : Option XmlElem)
    (pending : List (Option XmlElem)) : Option MoveOutcome := do
  let enabled ← pyGet2 s.buttons row col
  if enabled then make_move s row col resp pending
  else pure ⟨s, [], pending, 0⟩

/-! ### Persistence (`save_game` / `load_game`) -/

/-- The four persisted fields of `game_state.xml` as `save_game` writes
them and `load_game` reads them back: each `Row` element's text, and
the texts of `CurrentPlayer`, `GameResult` and `GameMode` (an `Option`
because an element's text can be `None`). -/
structure SavedFile where
  rows : List String
  currentPlayer : Option String
  gameResult : Option String
  gameMode : Option String

/-- Embeds `TicTacToe.save_game` (lines 150-169): each board row is
comma-joined into one `Row` element; the other three fields are copied
as element text. -/
def save_game (s : GameState) : SavedFile :=
  ⟨s.board.map (pyJoin ','), some s.current_player, s.game_result, s.game_mode⟩

/-- Embeds `TicTacToe.load_game` (lines 176-199): rebuild the board by
comma-splitting each `Row`, restore `current_player` and `game_mode`,
rebuild the UI board, and when the persisted `GameResult` text is not
`" "` disable all buttons and show that text.  The in-memory
`game_result` and `gameover` fields are not written.  (A `None`
`CurrentPlayer` text would store `None` into an otherwise string-typed
field; that unexercised degenerate case is modelled as a failure, and a
`None` `GameResult` label text as the empty label.) -/
def load_game (s : GameState) (file : SavedFile) : Option GameState := do
  let player ← file.currentPlayer
  let s1 : GameState :=
    { s with board := file.rows.map (pySplit ','),
             current_player := player,
             game_mode := file.gameMode }
  let s2 := create_board s1
  pure (if file.gameResult ≠ some " " then
          { disable_all_buttons s2 with
              info_label := file.gameResult.getD "" }
        else s2)

/-! ### The frame reader (`esp32_communication.py`) -/

/-- The loop of `esp32.receive_message` (lines 122-128): `acc` is the
`response_data` list; each transport line is stripped, appended when
non-empty, and the loop stops at the first line whose stripped content
ends with `"</response>"`.  The transport is modelled as the list of
lines successive `readline` calls deliver; exhausting it means the next
read blocks forever (`none`). -/
def receiveLoop (acc : List String) : List String → Option (String × List String)
  | [] => none
  | l :: rest =>
    let line := pyStrip l
    let acc1 := if line ≠ "" then acc ++ [line] else acc
    if pyEndsWith line "</response>" then some (pyConcat acc1, rest)
    else receiveLoop acc1 rest

/-- Embeds `esp32.receive_message` (lines 117-132) on an open connection:
returns the joined frame and the lines left unread on the transport. -/
def receive_message (lines : List String) : Option (String × List String) :=
  receiveLoop [] lines

/-- The `response_data` list `receive_message` will have accumulated
after reading the given lines: each line stripped, empty results
skipped. -/
def collected (ls : List String) : List String :=
  (ls.map pyStrip).filter fun l => l != ""

/-! ### Wire-frame builders and concrete fixtures used by the theorems -/

/-- A parsed `<response type="move">` frame carrying a status name and
the move coordinates (as the attribute strings on the wire). -/
def move_frame (status xs ys : String) : XmlElem :=
  .mk "response" [("type", "move")]
    [.mk "status" [("name", status)] [] none,
     .mk "move" [("x", xs), ("y", ys)] [] none]
    none

/-- A parsed `<response type="gameover">` frame. -/
def gameover_frame (status : String) : XmlElem :=
  .mk "response" [("type", "gameover")]
    [.mk "status" [("name", status)] [] none]
    none

/-- A parsed `<response type="error">` frame with the given text. -/
def error_frame (t : Option String) : XmlElem :=
  .mk "response" [("type", "error")] [] t

/-- Every board button is disabled. -/
def all_buttons_disabled (b : List (List Bool)) : Prop :=
  ∀ row ∈ b, ∀ x ∈ row, x = false

/-- A 3×3 grid of clickable buttons. -/
def fresh_buttons : List (List Bool) :=
  [[true, true, true], [true, true, true], [true, true, true]]

/-- A 3×3 grid of disabled buttons. -/
def dead_buttons : List (List Bool) :=
  [[false, false, false], [false, false, false], [false, false, false]]

/-- A running `pvp` game on an empty board where `O` is to move. -/
def stO : GameState :=
  { game_mode := some "pvp", gameover := false, game_result := some " ",
    current_player := "O", buttons := fresh_buttons, board := fresh_board,
    info_label := "Current player: O", back_button := true }

/-- A running `pvp` game where `(0,0)` is already occupied by `X` (its
button disabled accordingly) and `O` is to move. -/
def stOcc : GameState :=
  { game_mode := some "pvp", gameover := false, game_result := some " ",
    current_player := "O",
    buttons := [[false, true, true], [true, true, true], [true, true, true]],
    board := [["X", " ", " "], [" ", " ", " "], [" ", " ", " "]],
    info_label := "Current player: O", back_button := true }

/-- The state right after `start_game("botvbot")` has reset the session
and `create_board` has built the fresh UI. -/
def stBot : GameState :=
  { game_mode := some "botvbot", gameover := false, game_result := some " ",
    current_player := "X", buttons := fresh_buttons, board := fresh_board,
    info_label := "Current player: X", back_button := true }

/-- A terminal state (an early `gameover` response ended the game while
the board was still empty): result recorded, every button disabled. -/
def stTerm : GameState :=
  { game_mode := some "pvp", gameover := true,
    game_result := some "Player X won", current_player := "X",
    buttons := dead_buttons, board := fresh_board,
    info_label := "Player X won", back_button := true }

/-- A terminal state whose board still has empty cells next to occupied
ones: `(1,1)` holds `"O"`, `(0,0)` is empty. -/
def stTerm2 : GameState :=
  { game_mode := some "pvp", gameover := true,
    game_result := some "Player X won", current_player := "X",
    buttons := dead_buttons,
    board := [[" ", "X", " "], [" ", "O", " "], [" ", " ", "X"]],
    info_label := "Player X won", back_button := true }

/-- A finished game about to be saved: the result is recorded both in
`game_result` and on the label. -/
def stFin : GameState :=
  { game_mode := some "pvp", gameover := true,
    game_result := some "Player X won", current_player := "O",
    buttons := dead_buttons,
    board := [["X", "O", "X"], [" ", "X", "O"], [" ", " ", "X"]],
    info_label := "Player X won", back_button := true }

/-! ### Lemmas about the Python list-indexing embedding -/

theorem pyIdx_lt {len : Nat} {i : Int} {n : Nat} (h : pyIdx len i = some n) :
    n < len := by
  unfold pyIdx at h
  split at h
  · split at h
    · cases h; assumption
    · cases h
  · split at h
    · cases h
      rename_i hneg hle
      omega
    · cases h

theorem pyGet_eq {α : Type} {l : List α} {i : Int} {a : α}
    (h : pyGet l i = some a) :
    ∃ n, pyIdx l.length i = some n ∧ l[n]? = some a := by
  unfold pyGet at h
  cases hn : pyIdx l.length i with
  | none => rw [hn] at h; cases h
  | some n => rw [hn] at h; exact ⟨n, rfl, h⟩

theorem pySet_eq {α : Type} {l : List α} {i : Int} {v : α} {l' : List α}
    (h : pySet l i v = some l') :
    ∃ n, pyIdx l.length i = some n ∧ l' = l.set n v := by
  unfold pySet at h
  cases hn : pyIdx l.length i with
  | none => rw [hn] at h; cases h
  | some n => rw [hn] at h; cases h; exact ⟨n, rfl, rfl⟩

theorem pySet_isSome_of_pyGet {α : Type} {l : List α} {i : Int} {a : α}
    (h : pyGet l i = some a) (v : α) :
    ∃ l', pySet l i v = some l' := by
  obtain ⟨n, hn, -⟩ := pyGet_eq h
  exact ⟨l.set n v, by unfold pySet; rw [hn]; rfl⟩

theorem pyGet_pySet_self {α : Type} {l : List α} {i : Int} {v : α}
    {l' : List α} (h : pySet l i v = some l') :
    pyGet l' i = some v := by
  obtain ⟨n, hn, rfl⟩ := pySet_eq h
  unfold pyGet
  rw [List.length_set, hn]
  simp only [Option.some_bind]
  exact List.getElem?_set_eq_of_lt v (pyIdx_lt hn)

/-- After `l[i] = v`, position `j` holds `v` when `j` normalizes to the
written index and its old value otherwise. -/
theorem pyGet_pySet_cases {α : Type} {l : List α} {i j : Int} {v : α}
    {l' : List α} {n m : Nat}
    (h : pySet l i v = some l')
    (hn : pyIdx l.length i = some n) (hm : pyIdx l.length j = some m) :
    pyGet l' j = if m = n then some v else pyGet l j := by
  obtain ⟨n', hn', rfl⟩ := pySet_eq h
  rw [hn] at hn'; cases hn'
  unfold pyGet
  rw [List.length_set, hm]
  simp only [Option.some_bind]
  by_cases hmn : m = n
  · subst hmn
    rw [if_pos rfl]
    exact List.getElem?_set_eq_of_lt v (pyIdx_lt hn)
  · rw [if_neg hmn]
    exact List.getElem?_set_ne (fun hc => hmn hc.symm)

theorem pySet2_eq {α : Type} {g : List (List α)} {x y : Int} {v : α}
    {g' : List (List α)} (h : pySet2 g x y v = some g') :
    ∃ row row2, pyGet g x = some row ∧ pySet row y v = some row2 ∧
      pySet g x row2 = some g' := by
  unfold pySet2 at h
  cases hr : pyGet g x with
  | none => rw [hr] at h; cases h
  | some row =>
    rw [hr] at h
    simp only [Option.some_bind] at h
    cases hr2 : pySet row y v with
    | none => rw [hr2] at h; cases h
    | some row2 =>
      rw [hr2] at h
      simp only [Option.some_bind] at h
      exact ⟨row, row2, rfl, hr2, h⟩

theorem pySet2_isSome_of_pyGet2 {α : Type} {g : List (List α)} {x y : Int}
    {c : α} (h : pyGet2 g x y = some c) (v : α) :
    ∃ g', pySet2 g x y v = some g' := by
  unfold pyGet2 at h
  cases hr : pyGet g x with
  | none => rw [hr] at h; cases h
  | some row =>
    rw [hr] at h
    simp only [Option.some_bind] at h
    obtain ⟨row2, hrow2⟩ := pySet_isSome_of_pyGet h v
    obtain ⟨g', hg'⟩ := pySet_isSome_of_pyGet hr row2
    refine ⟨g', ?_⟩
    unfold pySet2
    rw [hr]
    simp only [Option.some_bind]
    rw [hrow2]
    simp only [Option.some_bind]
    exact hg'

theorem pyGet2_pySet2_self {α : Type} {g : List (List α)} {x y : Int}
    {v : α} {g' : List (List α)} (h : pySet2 g x y v = some g') :
    pyGet2 g' x y = some v := by
  obtain ⟨row, row2, hrow, hrow2, hset⟩ := pySet2_eq h
  unfold pyGet2
  rw [pyGet_pySet_self hset]
  exact pyGet_pySet_self hrow2

/-- After `g[x][y] = v`, any cell whose old value differs from the old
value of the written cell is unchanged. -/
theorem pyGet2_pySet2_preserve {α : Type} {g : List (List α)} {x y i j : Int}
    {v u w : α} {g' : List (List α)}
    (hset : pySet2 g x y v = some g')
    (hu : pyGet2 g x y = some u)
    (hw : pyGet2 g i j = some w)
    (hne : w ≠ u) :
    pyGet2 g' i j = some w := by
  obtain ⟨row, row2, hrow, hrow2, houter⟩ := pySet2_eq hset
  unfold pyGet2 at hu hw
  rw [hrow] at hu
  obtain ⟨n, hn, hgn⟩ := pyGet_eq hrow
  cases hri : pyGet g i with
  | none => rw [hri] at hw; cases hw
  | some rowi =>
    rw [hri] at hw
    obtain ⟨m, hm, hgm⟩ := pyGet_eq hri
    unfold pyGet2
    have houterCases := pyGet_pySet_cases houter hn hm
    by_cases hmn : m = n
    · subst hmn
      rw [if_pos rfl] at houterCases
      rw [houterCases]
      have hrow_eq : rowi = row := by
        rw [hgn] at hgm; cases hgm; rfl
      subst hrow_eq
      simp only [Option.some_bind]
      obtain ⟨ny, hny, hrowny⟩ := pyGet_eq hu
      obtain ⟨mj, hmj, hrowmj⟩ := pyGet_eq hw
      have hinner := pyGet_pySet_cases hrow2 hny hmj
      by_cases hji : mj = ny
      · exfalso
        subst hji
        rw [hrowny] at hrowmj
        cases hrowmj
        exact hne rfl
      · rw [if_neg hji] at hinner
        rw [hinner]
        exact hw
    · rw [if_neg hmn] at houterCases
      rw [houterCases, hri]
      exact hw

/-! ### Lemmas about the frame reader -/

/-- Running the accumulation loop over lines none of which carries the
terminator, followed by a terminator-bearing line, stops exactly there:
it returns the concatenation of the `response_data` accumulated so far
and leaves every later line unread. -/
theorem receiveLoop_spec (pre : List String) (t : String) (post acc : List String)
    (hpre : ∀ l ∈ pre, pyEndsWith (pyStrip l) "</response>" = false)
    (ht : pyEndsWith (pyStrip t) "</response>" = true) :
    receiveLoop acc (pre ++ t :: post) =
      some (pyConcat (acc ++ collected (pre ++ [t])), post) := by
  induction pre generalizing acc with
  | nil =>
    simp only [List.nil_append, receiveLoop, ht, if_true, collected,
      List.map_cons, List.map_nil, List.filter_cons, List.filter_nil]
    by_cases hts : pyStrip t = ""
    · simp [hts]
    · simp [hts]
  | cons l pre ih =>
    have hl := hpre l (List.mem_cons_self l pre)
    have hrest : ∀ l' ∈ pre, pyEndsWith (pyStrip l') "</response>" = false :=
      fun l' hl' => hpre l' (List.mem_cons_of_mem _ hl')
    simp only [List.cons_append, receiveLoop, hl, Bool.false_eq_true, if_false,
      List.append_eq]
    rw [ih _ hrest]
    by_cases hls : pyStrip l = ""
    · simp [collected, hls]
    · simp only [collected, List.map_cons, List.filter_cons, List.cons_append]
      simp [hls, List.append_assoc]

/-- Joining ignores the empty strings in its argument. -/
theorem pyConcat_filter_ne (l : List String) :
    pyConcat (l.filter fun s => s != "") = pyConcat l := by
  induction l with
  | nil => rfl
  | cons s rest ih =>
    by_cases hs : s = ""
    · subst hs
      simpa [pyConcat, List.filter_cons] using ih
    · simp [pyConcat, List.filter_cons, hs, ih]

theorem map_pyStrip_id {ls : List String} (h : ∀ l ∈ ls, pyStrip l = l) :
    ls.map pyStrip = ls := by
  induction ls with
  | nil => rfl
  | cons l rest ih =>
    simp [h l (List.mem_cons_self l rest),
      ih fun l' hl' => h l' (List.mem_cons_of_mem _ hl')]

/-- C5: for every delivered line sequence, `receive_message` accumulates
line content until the first line whose stripped trailing content ends
with `"</response>"`, returns the concatenation of all accumulated
content (the stripped non-empty lines) including the terminator-bearing
line as one frame, and returns exactly one frame per call, leaving every
line after the terminator unread (no prefetch). -/
theorem C5_frame_accumulation (pre : List String) (t : String) (post : List String)
    (hpre : ∀ l ∈ pre, pyEndsWith (pyStrip l) "</response>" = false)
    (ht : pyEndsWith (pyStrip t) "</response>" = true) :
    receive_message (pre ++ t :: post) =
      some (pyConcat (collected (pre ++ [t])), post) := by
  simpa [receive_message] using receiveLoop_spec pre t post [] hpre ht

theorem C5_frame_accumulation_witness :
    receive_message ["<response type=\"move\">", "", "<status name=\"X\"/>",
        "</response>", "<next>"] =
      some (pyConcat (collected ["<response type=\"move\">", "",
        "<status name=\"X\"/>", "</response>"]), ["<next>"]) :=
  C5_frame_accumulation
    ["<response type=\"move\">", "", "<status name=\"X\"/>"]
    "</response>" ["<next>"] (by decide) (by decide)

/-- C6 (corrected): splitting a frame at arbitrary boundaries does *not*
always reconstruct it — each read chunk is stripped, so whitespace
adjacent to a split boundary is lost.  Concretely, the valid frame
`"<response type=\x7berror\x7d>a b</response>"`-like frame below, split
just after the interior space, comes back with that space missing. -/
theorem C6_counterexample :
    receive_message ["<response>a ", "b</response>"] =
      some ("<response>ab</response>", []) ∧
    pyConcat ["<response>a ", "b</response>"] = "<response>a b</response>" ∧
    ("<response>ab</response>" : String) ≠ "<response>a b</response>" := by
  refine ⟨by decide, by decide, by decide⟩

/-- C6 (amended): the frame reader reconstructs exactly the original
frame content for any split whose chunks carry no leading or trailing
whitespace (stripping is then the identity on every chunk); bytes
collected before the terminator are never dropped. -/
theorem C6_framing_completeness (pre : List String) (t : String) (post : List String)
    (hid : ∀ l ∈ pre ++ [t], pyStrip l = l)
    (hpre : ∀ l ∈ pre, pyEndsWith (pyStrip l) "</response>" = false)
    (ht : pyEndsWith (pyStrip t) "</response>" = true) :
    receive_message (pre ++ t :: post) =
      some (pyConcat (pre ++ [t]), post) := by
  have h1 := receiveLoop_spec pre t post [] hpre ht
  rw [receive_message, h1]
  rw [show collected (pre ++ [t]) = ((pre ++ [t]).map pyStrip).filter
        (fun s => s != "") from rfl]
  rw [map_pyStrip_id hid, List.nil_append, pyConcat_filter_ne]

theorem C6_framing_completeness_witness :
    receive_message ["<response>a b", "c d</response>", "tail"] =
      some (pyConcat ["<response>a b", "c d</response>"], ["tail"]) :=
  C6_framing_completeness ["<response>a b"] "c d</response>" ["tail"]
    (by decide) (by decide) (by decide)

/-! ### Lemmas about the response dispatcher and the move handlers -/

theorem handle_move_unfold (s : GameState) (st xs ys : String) :
    handle_move s (move_frame st xs ys) =
      (pyInt xs).bind fun x =>
      (pyInt ys).bind fun y =>
      (pyGet2 s.board x y).bind fun cell =>
      (handle_move_place s x y cell).bind fun s1 =>
      if (some st : Option String) ≠ some "Continue"
      then game_over s1 (move_frame st xs ys) else some s1 := rfl

theorem bot_move_apply_unfold (s : GameState) (st xs ys : String) :
    bot_move_apply s (move_frame st xs ys) =
      (pyInt xs).bind fun x =>
      (pyInt ys).bind fun y =>
      (pyGet2 s.board x y).bind fun cell =>
      (process_bot_place s x y cell).bind fun s1 =>
      some (s1, some st) := rfl

theorem handle_response_move_frame (s : GameState) (pending : List (Option XmlElem))
    (st xs ys : String) :
    handle_response s (some (move_frame st xs ys)) pending =
      (handle_move s (move_frame st xs ys)).map fun s' =>
        ⟨s', pending, 0⟩ := rfl

theorem handle_response_error_frame (s : GameState) (pending : List (Option XmlElem))
    (t : Option String) :
    handle_response s (some (error_frame t)) pending = some ⟨s, pending, 0⟩ := rfl

theorem handle_response_gameover_frame (s : GameState)
    (pending : List (Option XmlElem)) (st : String) :
    handle_response s (some (gameover_frame st)) pending =
      (game_over s (gameover_frame st)).map fun s' =>
        ⟨s', pending, 0⟩ := rfl

theorem handle_move_place_empty (s : GameState) (x y : Int) :
    handle_move_place s x y " " =
      (pySet2 s.board x y (next_player s.current_player)).bind fun b =>
      (pySet2 s.buttons x y false).bind fun bt =>
      some { change_player s with board := b, buttons := bt } := by
  unfold handle_move_place
  rw [if_pos rfl]

theorem handle_move_place_occupied (s : GameState) (x y : Int) {c : String}
    (h : c ≠ " ") : handle_move_place s x y c = some s := by
  unfold handle_move_place
  rw [if_neg h]

theorem process_bot_place_empty (s : GameState) (x y : Int) :
    process_bot_place s x y " " =
      (pySet2 s.board x y s.current_player).bind fun b =>
      (pySet2 s.buttons x y false).bind fun bt =>
      some (change_player { s with board := b, buttons := bt }) := by
  unfold process_bot_place
  rw [if_pos rfl]

theorem process_bot_place_occupied (s : GameState) (x y : Int) {c : String}
    (h : c ≠ " ") : process_bot_place s x y c = some s := by
  unfold process_bot_place
  rw [if_neg h]

/-- Running `handle_move` on a move frame whose target cell is empty: the player
is toggled first, then the toggled player's mark is written. -/
theorem handle_move_empty {s : GameState} (st xs ys : String) {x y : Int}
    {b : List (List String)} {bt : List (List Bool)}
    (hx : pyInt xs = some x) (hy : pyInt ys = some y)
    (hcell : pyGet2 s.board x y = some " ")
    (hb : pySet2 s.board x y (next_player s.current_player) = some b)
    (hbt : pySet2 s.buttons x y false = some bt) :
    handle_move s (move_frame st xs ys) =
      if st ≠ "Continue"
      then game_over { change_player s with board := b, buttons := bt }
             (move_frame st xs ys)
      else some { change_player s with board := b, buttons := bt } := by
  rw [handle_move_unfold, hx]
  simp only [Option.some_bind]
  rw [hy]
  simp only [Option.some_bind]
  rw [hcell]
  simp only [Option.some_bind]
  rw [handle_move_place_empty, hb]
  simp only [Option.some_bind]
  rw [hbt]
  simp only [Option.some_bind]
  by_cases hst : st = "Continue"
  · subst hst
    rw [if_neg (by simp), if_neg (by simp)]
  · rw [if_pos (by simpa using hst), if_pos hst]

/-- Running `handle_move` on a move frame whose target cell is occupied: neither
the board nor the player is touched; only the terminal-status check
runs. -/
theorem handle_move_occupied {s : GameState} (st xs ys : String) {x y : Int}
    {c : String}
    (hx : pyInt xs = some x) (hy : pyInt ys = some y)
    (hcell : pyGet2 s.board x y = some c) (hocc : c ≠ " ") :
    handle_move s (move_frame st xs ys) =
      if st ≠ "Continue" then game_over s (move_frame st xs ys) else some s := by
  rw [handle_move_unfold, hx]
  simp only [Option.some_bind]
  rw [hy]
  simp only [Option.some_bind]
  rw [hcell]
  simp only [Option.some_bind]
  rw [handle_move_place_occupied s x y hocc]
  simp only [Option.some_bind]
  by_cases hst : st = "Continue"
  · subst hst
    rw [if_neg (by simp), if_neg (by simp)]
  · rw [if_pos (by simpa using hst), if_pos hst]

/-- The bot-loop body on a move frame whose target cell is empty: the
*current* player's mark is written first, then the player is toggled. -/
theorem bot_move_apply_empty {s : GameState} (st xs ys : String) {x y : Int}
    {b : List (List String)} {bt : List (List Bool)}
    (hx : pyInt xs = some x) (hy : pyInt ys = some y)
    (hcell : pyGet2 s.board x y = some " ")
    (hb : pySet2 s.board x y s.current_player = some b)
    (hbt : pySet2 s.buttons x y false = some bt) :
    bot_move_apply s (move_frame st xs ys) =
      some (change_player { s with board := b, buttons := bt }, some st) := by
  rw [bot_move_apply_unfold, hx]
  simp only [Option.some_bind]
  rw [hy]
  simp only [Option.some_bind]
  rw [hcell]
  simp only [Option.some_bind]
  rw [process_bot_place_empty, hb]
  simp only [Option.some_bind]
  rw [hbt]
  simp only [Option.some_bind]

/-- The status dispatch never touches the board, the current player,
the game mode or the back button. -/
theorem game_over_status_fields (s : GameState) (status : Option String) :
    (game_over_status s status).board = s.board ∧
    (game_over_status s status).current_player = s.current_player ∧
    (game_over_status s status).game_mode = s.game_mode ∧
    (game_over_status s status).back_button = s.back_button := by
  cases status with
  | none => exact ⟨rfl, rfl, rfl, rfl⟩
  | some n =>
    simp only [game_over_status]
    split_ifs <;> exact ⟨rfl, rfl, rfl, rfl⟩

/-- The function `game_over` never touches the board, the current player, the game
mode or the back button. -/
theorem game_over_fields {s : GameState} {root : XmlElem} {s' : GameState}
    (h : game_over s root = some s') :
    s'.board = s.board ∧ s'.current_player = s.current_player ∧
    s'.game_mode = s.game_mode ∧ s'.back_button = s.back_button := by
  unfold game_over at h
  rw [Option.map_eq_some'] at h
  obtain ⟨stEl, hf, hs⟩ := h
  subst hs
  exact game_over_status_fields s _

theorem all_disabled_after (b : List (List Bool)) :
    all_buttons_disabled (b.map fun row => row.map fun _ => false) := by
  intro row hrow x hx
  simp only [List.mem_map] at hrow
  obtain ⟨row0, -, rfl⟩ := hrow
  simp only [List.mem_map] at hx
  obtain ⟨x0, -, hxx⟩ := hx
  exact hxx.symm

/-- A terminal `gameover` status records the result and disables every
board button. -/
theorem game_over_terminal (s : GameState) {root : XmlElem} {stEl : XmlElem}
    {n : String}
    (hf : root.findTag "status" = some stEl)
    (hn : stEl.attrGet "name" = some n)
    (hterm : n = "X" ∨ n = "O" ∨ n = "Draw") :
    ∃ s', game_over s root = some s' ∧ s'.gameover = true ∧
      all_buttons_disabled s'.buttons := by
  refine ⟨game_over_status s (stEl.attrGet "name"), ?_, ?_, ?_⟩
  · unfold game_over
    rw [hf]
    rfl
  · rw [hn]
    rcases hterm with rfl | rfl | rfl <;> rfl
  · rw [hn]
    rcases hterm with rfl | rfl | rfl <;> exact all_disabled_after _

/-- Dispatching the same status twice records the same result: the
status dispatch is idempotent. -/
theorem game_over_status_idem (s : GameState) (status : Option String) :
    game_over_status (game_over_status s status) status =
      game_over_status s status := by
  cases status with
  | none => rfl
  | some n =>
    simp only [game_over_status]
    by_cases h1 : (n = "X" || n = "O") = true
    · rw [if_pos h1, if_pos h1]
      simp [disable_all_buttons, List.map_map, Function.comp]
    · rw [if_neg h1, if_neg h1]
      by_cases h2 : n = "Draw"
      · rw [if_pos h2, if_pos h2]
        simp [disable_all_buttons, List.map_map, Function.comp]
      · rw [if_neg h2, if_neg h2]

/-- Re-dispatching the same `gameover` frame is harmless: `game_over`
is idempotent, so a second `GameOver` cannot corrupt the recorded
result. -/
theorem game_over_idem {s : GameState} {root : XmlElem} {s' : GameState}
    (h : game_over s root = some s') : game_over s' root = some s' := by
  unfold game_over at h ⊢
  rw [Option.map_eq_some'] at h
  obtain ⟨stEl, hf, hs⟩ := h
  subst hs
  rw [hf]
  simp only [Option.map_some']
  rw [game_over_status_idem]

/-- A disabled cell button cannot fire `make_move`: clicking it changes
nothing and sends nothing. -/
theorem clickCell_disabled (s : GameState) (row col : Nat)
    (resp : Option XmlElem) (pending : List (Option XmlElem))
    (h : pyGet2 s.buttons row col = some false) :
    clickCell s row col resp pending = some ⟨s, [], pending, 0⟩ := by
  unfold clickCell
  rw [h]
  rfl

/-- C2: dispatching a MoveResult at the empty cell (0,0) with status
`"Continue"` while the current player is `O` toggles the player first
and then places the toggled player's mark: afterwards the board at
(0,0) holds `"X"` and the current player is `"X"`; no further frame is
consumed. -/
theorem C2_toggle_before_place (s : GameState) (pending : List (Option XmlElem))
    (hp : s.current_player = "O")
    (hcell : pyGet2 s.board 0 0 = some " ")
    (hbtn : (pyGet2 s.buttons 0 0).isSome) :
    ∃ r : DispatchResult,
      handle_response s (some (move_frame "Continue" "0" "0")) pending = some r ∧
      pyGet2 r.state.board 0 0 = some "X" ∧
      r.state.current_player = "X" ∧ r.pending = pending ∧ r.received = 0 := by
  obtain ⟨b, hb⟩ := pySet2_isSome_of_pyGet2 hcell (next_player s.current_player)
  obtain ⟨c0, hc0⟩ := Option.isSome_iff_exists.mp hbtn
  obtain ⟨bt, hbt⟩ := pySet2_isSome_of_pyGet2 hc0 false
  have hm := handle_move_empty "Continue" "0" "0" (by decide) (by decide)
    hcell hb hbt
  rw [if_neg (by simp)] at hm
  refine ⟨⟨{ change_player s with board := b, buttons := bt }, pending, 0⟩,
    ?_, ?_, ?_, rfl, rfl⟩
  · rw [handle_response_move_frame, hm]
    rfl
  · show pyGet2 b 0 0 = some "X"
    have hself := pyGet2_pySet2_self hb
    rw [hp] at hself
    have : next_player "O" = "X" := by decide
    rwa [this] at hself
  · show next_player s.current_player = "X"
    rw [hp]
    decide

theorem C2_toggle_before_place_witness :
    ∃ r : DispatchResult,
      handle_response stO (some (move_frame "Continue" "0" "0")) [] = some r ∧
      pyGet2 r.state.board 0 0 = some "X" ∧
      r.state.current_player = "X" ∧
      r.pending = ([] : List (Option XmlElem)) ∧ r.received = 0 :=
  C2_toggle_before_place stO [] rfl (by decide) (by decide)

/-- C9 (amended): an error response leaves the game state unchanged, and
the surfaced message is the envelope text stripped of surrounding
whitespace whenever the raw text is non-empty; the `"Unknown error"`
default applies only when the text is absent or empty *before*
stripping (whitespace-only text therefore surfaces as the empty
message, not the default). -/
theorem C9_error_message_spec (s : GameState) (pending : List (Option XmlElem))
    (t : Option String) :
    handle_response s (some (error_frame t)) pending = some ⟨s, pending, 0⟩ ∧
    ((t = none ∨ t = some "") → error_message (error_frame t) = "Unknown error") ∧
    (∀ str : String, str ≠ "" →
      error_message (error_frame (some str)) = pyStrip str) := by
  refine ⟨handle_response_error_frame s pending t, ?_, ?_⟩
  · rintro (rfl | rfl) <;> rfl
  · intro str hstr
    show (if str = "" then "Unknown error" else pyStrip str) = pyStrip str
    rw [if_neg hstr]

/-- C9 (counterexample): for whitespace-only error text the trimmed
content is empty, yet the surfaced message is `""`, not
`"Unknown error"`. -/
theorem C9_counterexample :
    pyStrip " " = "" ∧
    error_message (error_frame (some " ")) = "" ∧
    ("" : String) ≠ "Unknown error" := by
  refine ⟨by decide, by decide, by decide⟩

theorem C9_error_message_spec_witness :
    handle_response stO (some (error_frame (some "  boom  "))) [] =
      some ⟨stO, [], 0⟩ ∧
    error_message (error_frame none) = "Unknown error" ∧
    error_message (error_frame (some "  boom  ")) = pyStrip "  boom  " :=
  ⟨(C9_error_message_spec stO [] (some "  boom  ")).1,
   (C9_error_message_spec stO [] none).2.1 (Or.inl rfl),
   (C9_error_message_spec stO [] (some "  boom  ")).2.2 "  boom  " (by decide)⟩

/-- C10: a dispatched MoveResult whose target cell is already occupied
leaves both the board and the current player unchanged — the toggle is
skipped entirely — while the terminal-status check on the frame's
status attribute still runs and can still end the game. -/
theorem C10_occupied_no_toggle (s : GameState) (status xs ys : String)
    (x y : Int) (c : String)
    (hx : pyInt xs = some x) (hy : pyInt ys = some y)
    (hc : pyGet2 s.board x y = some c) (hocc : c ≠ " ") :
    handle_move s (move_frame status xs ys) =
      (if status ≠ "Continue" then game_over s (move_frame status xs ys)
       else some s) ∧
    (∀ s', handle_move s (move_frame status xs ys) = some s' →
      s'.board = s.board ∧ s'.current_player = s.current_player) ∧
    (status = "X" → ∃ s', handle_move s (move_frame status xs ys) = some s' ∧
      s'.gameover = true) := by
  have h0 := handle_move_occupied status xs ys hx hy hc hocc
  refine ⟨h0, ?_, ?_⟩
  · intro s' hs'
    rw [h0] at hs'
    by_cases hst : status = "Continue"
    · rw [if_neg (by simp [hst])] at hs'
      cases hs'
      exact ⟨rfl, rfl⟩
    · rw [if_pos hst] at hs'
      obtain ⟨hbo, hpl, -, -⟩ := game_over_fields hs'
      exact ⟨hbo, hpl⟩
  · rintro rfl
    obtain ⟨s', hgo, hg, -⟩ :=
      game_over_terminal s
        (show (move_frame "X" xs ys).findTag "status" =
            some (XmlElem.mk "status" [("name", "X")] [] none) from rfl)
        (show (XmlElem.mk "status" [("name", "X")] [] none).attrGet "name" =
            some "X" from rfl)
        (Or.inl rfl)
    refine ⟨s', ?_, hg⟩
    rw [h0, if_pos (by decide)]
    exact hgo

theorem next_player_ne (p : String) : next_player p ≠ p := by
  unfold next_player
  by_cases h : p = "X"
  · rw [if_pos h, h]
    decide
  · rw [if_neg h]
    exact fun hc => h hc.symm

/-- Unfolding: `handle_move` written as the explicit chain of fallible steps it
performs (definitional unfolding, for arbitrary frames). -/
theorem handle_move_def (s : GameState) (f : XmlElem) :
    handle_move s f =
      (f.findTag "status").bind fun stEl =>
      (f.findTag "move").bind fun mv =>
      (mv.attrGet "x").bind fun xs =>
      (pyInt xs).bind fun x =>
      (mv.attrGet "y").bind fun ys =>
      (pyInt ys).bind fun y =>
      (pyGet2 s.board x y).bind fun cell =>
      (handle_move_place s x y cell).bind fun s1 =>
      if stEl.attrGet "name" ≠ some "Continue" then game_over s1 f
      else some s1 := rfl

/-- Whatever frame `handle_move` processes, it never changes a cell that
already holds a mark. -/
theorem handle_move_nonempty_preserved {s : GameState} {f : XmlElem}
    {s' : GameState} {i j : Int} {v : String}
    (h : handle_move s f = some s') (hv : pyGet2 s.board i j = some v)
    (hne : v ≠ " ") :
    pyGet2 s'.board i j = some v := by
  rw [handle_move_def] at h
  simp only [Option.bind_eq_some] at h
  obtain ⟨stEl, -, mv, -, xs, -, x, -, ys, -, y, -, cell, hcell, s1, hs1, hfin⟩ := h
  have hboard1 : pyGet2 s1.board i j = some v := by
    unfold handle_move_place at hs1
    by_cases hc : cell = " "
    · rw [if_pos hc] at hs1
      subst hc
      simp only [Option.bind_eq_some] at hs1
      obtain ⟨b, hb, bt, hbt, hpure⟩ := hs1
      cases hpure
      exact pyGet2_pySet2_preserve hb hcell hv hne
    · rw [if_neg hc] at hs1
      cases hs1
      exact hv
  by_cases hst : stEl.attrGet "name" ≠ some "Continue"
  · rw [if_pos hst] at hfin
    obtain ⟨hb', -, -, -⟩ := game_over_fields hfin
    rw [hb']
    exact hboard1
  · rw [if_neg hst] at hfin
    cases hfin
    exact hboard1

/-- C3 (counterexample): with current player `O` and `(0,0)` empty, the
dispatcher path (`handle_move`) places `"X"` at `(0,0)` while the
bot-observation path (`bot_move_apply`, the per-frame body of
`process_bot_move`) places `"O"`: the two paths do not put the same
mark on the board. -/
theorem C3_counterexample :
    ∃ (sh : GameState) (p : GameState × Option String),
      handle_move stO (move_frame "Continue" "0" "0") = some sh ∧
      bot_move_apply stO (move_frame "Continue" "0" "0") = some p ∧
      pyGet2 sh.board 0 0 = some "X" ∧
      pyGet2 p.1.board 0 0 = some "O" ∧
      sh.board ≠ p.1.board := by
  refine ⟨_, _, rfl, rfl, ?_, ?_, ?_⟩ <;> decide

/-- C3 (amended): for a MoveResult on an empty target cell both paths
toggle the player exactly once, so the resulting current player agrees;
but the marks differ — `handle_move` places the *toggled* player's mark
while the bot loop places the *pre-toggle* player's mark, and the two
marks are never equal. -/
theorem C3_paths_compared (s : GameState) (status xs ys : String) (x y : Int)
    (hx : pyInt xs = some x) (hy : pyInt ys = some y)
    (hcell : pyGet2 s.board x y = some " ")
    (hbtn : (pyGet2 s.buttons x y).isSome) :
    ∃ (sh : GameState) (p : GameState × Option String),
      handle_move s (move_frame status xs ys) = some sh ∧
      bot_move_apply s (move_frame status xs ys) = some p ∧
      sh.current_player = p.1.current_player ∧
      pyGet2 sh.board x y = some (next_player s.current_player) ∧
      pyGet2 p.1.board x y = some s.current_player ∧
      next_player s.current_player ≠ s.current_player := by
  obtain ⟨b, hb⟩ := pySet2_isSome_of_pyGet2 hcell (next_player s.current_player)
  obtain ⟨b2, hb2⟩ := pySet2_isSome_of_pyGet2 hcell s.current_player
  obtain ⟨c0, hc0⟩ := Option.isSome_iff_exists.mp hbtn
  obtain ⟨bt, hbt⟩ := pySet2_isSome_of_pyGet2 hc0 false
  have hm := handle_move_empty status xs ys hx hy hcell hb hbt
  have hbot := bot_move_apply_empty status xs ys hx hy hcell hb2 hbt
  have hbboard : pyGet2 b x y = some (next_player s.current_player) :=
    pyGet2_pySet2_self hb
  have hb2board : pyGet2 b2 x y = some s.current_player :=
    pyGet2_pySet2_self hb2
  by_cases hst : status = "Continue"
  · rw [if_neg (by simp [hst])] at hm
    exact ⟨_, _, hm, hbot, rfl, hbboard, hb2board, next_player_ne _⟩
  · rw [if_pos hst] at hm
    have hgo : game_over { change_player s with board := b, buttons := bt }
        (move_frame status xs ys) =
        some (game_over_status { change_player s with board := b, buttons := bt }
          (some status)) := rfl
    rw [hgo] at hm
    obtain ⟨hgb, hgp, -, -⟩ := game_over_status_fields
      { change_player s with board := b, buttons := bt } (some status)
    refine ⟨_, _, hm, hbot, ?_, ?_, hb2board, next_player_ne _⟩
    · rw [hgp]
      rfl
    · rw [hgb]
      exact hbboard

theorem C3_paths_compared_witness :
    ∃ (sh : GameState) (p : GameState × Option String),
      handle_move stO (move_frame "X" "2" "2") = some sh ∧
      bot_move_apply stO (move_frame "X" "2" "2") = some p ∧
      sh.current_player = p.1.current_player ∧
      pyGet2 sh.board 2 2 = some (next_player stO.current_player) ∧
      pyGet2 p.1.board 2 2 = some stO.current_player ∧
      next_player stO.current_player ≠ stO.current_player :=
  C3_paths_compared stO "X" "2" "2" 2 2 (by decide) (by decide)
    (by decide) (by decide)

/-- C1 (counterexample): in a terminal state (`gameover` recorded) a
dispatched MoveResult at a still-empty cell *does* change the board:
`handle_move` performs no `gameover` check. -/
theorem C1_counterexample :
    stTerm.gameover = true ∧
    ∃ s', handle_move stTerm (move_frame "Continue" "0" "0") = some s' ∧
      s'.board ≠ stTerm.board :=
  ⟨rfl, _, rfl, by decide⟩

/-- C1 (amended): neither `handle_move` nor `make_move` consults
`gameover`, so at the function level further moves are not no-ops (see
the counterexample).  What the code does guarantee: (i) `handle_move`
never changes a cell that already holds a mark, so the recorded marks
survive any further remote move; (ii) re-dispatching a `GameOver` frame
is idempotent — a second dispatch of the same frame leaves the recorded
result intact; (iii) for local moves the no-op guarantee lives in the
UI layer: clicking a disabled button (and a terminal `game_over`
disables every button) changes nothing and sends nothing. -/
theorem C1_terminal_behaviour :
    (∀ (s : GameState) (f : XmlElem) (s' : GameState) (i j : Int) (v : String),
      handle_move s f = some s' → pyGet2 s.board i j = some v → v ≠ " " →
      pyGet2 s'.board i j = some v) ∧
    (∀ (s : GameState) (f : XmlElem) (s' : GameState),
      game_over s f = some s' → game_over s' f = some s') ∧
    (∀ (s : GameState) (row col : Nat) (resp : Option XmlElem)
      (pending : List (Option XmlElem)),
      pyGet2 s.buttons row col = some false →
      clickCell s row col resp pending = some ⟨s, [], pending, 0⟩) :=
  ⟨fun _ _ _ _ _ _ h hv hne => handle_move_nonempty_preserved h hv hne,
   fun _ _ _ h => game_over_idem h,
   fun s row col resp pending h => clickCell_disabled s row col resp pending h⟩

theorem C1_terminal_behaviour_witness :
    ((handle_move stTerm2 (move_frame "Continue" "0" "0")).map fun t =>
        pyGet2 t.board 1 1) = some (some "O") ∧
    clickCell stTerm 0 0 none [] = some ⟨stTerm, [], [], 0⟩ ∧
    ((game_over stO (gameover_frame "X")).bind fun g =>
        game_over g (gameover_frame "X")) = game_over stO (gameover_frame "X") := by
  refine ⟨?_, ?_, ?_⟩
  · cases hh : handle_move stTerm2 (move_frame "Continue" "0" "0") with
    | none => exact absurd hh (by decide)
    | some t =>
      have := C1_terminal_behaviour.1 stTerm2 _ t 1 1 "O" hh (by decide) (by decide)
      simp [this]
  · exact C1_terminal_behaviour.2.2 stTerm 0 0 none [] (by decide)
  · cases hg : game_over stO (gameover_frame "X") with
    | none => exact absurd hg (by decide)
    | some g =>
      have := C1_terminal_behaviour.2.1 stO _ g hg
      simp [hg, this]

theorem C10_occupied_no_toggle_witness :
    (handle_move stOcc (move_frame "X" "0" "0") =
      if "X" ≠ "Continue" then game_over stOcc (move_frame "X" "0" "0")
      else some stOcc) ∧
    ∃ s', handle_move stOcc (move_frame "X" "0" "0") = some s' ∧
      s'.gameover = true :=
  ⟨(C10_occupied_no_toggle stOcc "X" "0" "0" 0 0 "X"
      (by decide) (by decide) (by decide) (by decide)).1,
   (C10_occupied_no_toggle stOcc "X" "0" "0" 0 0 "X"
      (by decide) (by decide) (by decide) (by decide)).2.2 rfl⟩

theorem send_move_def (s : GameState) (row col : Nat) (resp : Option XmlElem)
    (pending : List (Option XmlElem)) :
    send_move s row col resp pending =
      (handle_response s resp pending).bind fun r =>
      some ⟨r.state, [move_request s.current_player row col],
        r.pending, r.received + 1⟩ := rfl

theorem make_move_def (s : GameState) (row col : Nat) (resp : Option XmlElem)
    (pending : List (Option XmlElem)) :
    make_move s row col resp pending =
      (pySet2 s.board row col s.current_player).bind fun b =>
      (pySet2 s.buttons row col false).bind fun bt =>
      (send_move { s with board := b, buttons := bt } row col resp
        pending).bind fun o =>
      some { o with state := if o.state.gameover = false
                             then change_player o.state else o.state } := rfl

/-- C4 (counterexample): `make_move` on an occupied cell neither rejects
the move nor skips the transport: it overwrites the cell and sends the
move request anyway.  (`stOcc` holds `"X"` at `(0,0)`; the reply here is
an error frame, which leaves the state unchanged when dispatched.) -/
theorem C4_counterexample :
    ∃ o : MoveOutcome,
      make_move stOcc 0 0 (some (error_frame none)) [] = some o ∧
      o.sent ≠ [] ∧ o.state.board ≠ stOcc.board := by
  refine ⟨_, rfl, ?_, ?_⟩
  · simp
  · decide

/-- C4 (amended): the engine itself performs no occupied-cell or
game-over validation — `make_move`, whenever it runs, always sends
exactly the move request for the current player (and has already
written the mark).  The rejection the spec describes is provided by the
UI layer: a move can only be initiated through a cell button, clicking
a disabled button changes nothing and causes no transport traffic, and
a terminal `game_over` disables every cell button. -/
theorem C4_local_move_validation :
    (∀ (s : GameState) (row col : Nat) (resp : Option XmlElem)
      (pending : List (Option XmlElem)),
      pyGet2 s.buttons row col = some false →
      clickCell s row col resp pending = some ⟨s, [], pending, 0⟩) ∧
    (∀ (s : GameState) (row col : Nat) (resp : Option XmlElem)
      (pending : List (Option XmlElem)) (o : MoveOutcome),
      make_move s row col resp pending = some o →
      o.sent = [move_request s.current_player row col]) ∧
    (∀ (s : GameState) (root stEl : XmlElem) (n : String),
      root.findTag "status" = some stEl → stEl.attrGet "name" = some n →
      (n = "X" ∨ n = "O" ∨ n = "Draw") →
      ∃ s', game_over s root = some s' ∧ s'.gameover = true ∧
        all_buttons_disabled s'.buttons) := by
  refine ⟨fun s row col resp pending h =>
      clickCell_disabled s row col resp pending h, ?_,
    fun s root stEl n hf hn hterm => game_over_terminal s hf hn hterm⟩
  intro s row col resp pending o h
  rw [make_move_def] at h
  simp only [Option.bind_eq_some] at h
  obtain ⟨b, -, bt, -, o1, ho1, hfin⟩ := h
  rw [send_move_def] at ho1
  simp only [Option.bind_eq_some] at ho1
  obtain ⟨r, -, ho1⟩ := ho1
  cases ho1
  cases hfin
  rfl

theorem C4_local_move_validation_witness :
    clickCell stOcc 0 0 (some (error_frame none)) [] =
      some ⟨stOcc, [], [], 0⟩ ∧
    ((make_move stO 1 1 none []).map fun o => o.sent) =
      some [move_request "O" 1 1] ∧
    ∃ s', game_over stO (gameover_frame "Draw") = some s' ∧
      s'.gameover = true ∧ all_buttons_disabled s'.buttons := by
  refine ⟨C4_local_move_validation.1 stOcc 0 0 _ _ (by decide), ?_,
    C4_local_move_validation.2.2 stO (gameover_frame "Draw") _ "Draw"
      rfl rfl (Or.inr (Or.inr rfl))⟩
  cases hh : make_move stO 1 1 none [] with
  | none => exact absurd (congrArg Option.isSome hh) (by decide)
  | some o =>
    have := C4_local_move_validation.2.1 stO 1 1 none [] o hh
    simp [this]
    rfl

/-- C7: fed `MoveResult(Continue)`, `MoveResult(Continue)`,
`MoveResult("X")` (plus anything behind them), the bot-observation loop
entered through `handle_bot_v_bot` performs exactly three
receive-and-dispatch cycles, never touches a fourth frame, and on
termination re-enables the back-to-menu button it had disabled for the
loop's duration; the game ends with the win recorded. -/
theorem C7_bot_loop_termination (extra : List (Option XmlElem)) :
    ∃ sf : GameState,
      handle_bot_v_bot stBot
        ([some (move_frame "Continue" "0" "0"),
          some (move_frame "Continue" "1" "1"),
          some (move_frame "X" "2" "2")] ++ extra) =
        some ⟨sf, extra, 3⟩ ∧
      sf.back_button = true ∧ sf.gameover = true ∧
      sf.game_result = some "Player X won" ∧
      ({ disable_all_buttons stBot with back_button := false }).back_button
        = false :=
  ⟨_, rfl, rfl, rfl, rfl, rfl⟩

theorem C7_bot_loop_termination_witness :
    ∃ sf : GameState,
      handle_bot_v_bot stBot
        ([some (move_frame "Continue" "0" "0"),
          some (move_frame "Continue" "1" "1"),
          some (move_frame "X" "2" "2")] ++
         [some (move_frame "O" "0" "1")]) =
        some ⟨sf, [some (move_frame "O" "0" "1")], 3⟩ ∧
      sf.back_button = true ∧ sf.gameover = true ∧
      sf.game_result = some "Player X won" ∧
      ({ disable_all_buttons stBot with back_button := false }).back_button
        = false :=
  C7_bot_loop_termination [some (move_frame "O" "0" "1")]

/-! ### Lemmas about the persistence round trip -/

theorem splitCharsAux_append (sep : Char) (p cs acc : List Char)
    (h : sep ∉ p) :
    splitCharsAux sep (p ++ cs) acc = splitCharsAux sep cs (p.reverse ++ acc) := by
  induction p generalizing acc with
  | nil => simp
  | cons c p ih =>
    have hc : ¬ c = sep := by
      intro hcc
      exact h (by rw [hcc]; exact List.mem_cons_self _ _)
    simp only [List.cons_append, splitCharsAux, if_neg hc, List.append_eq]
    rw [ih _ fun hm => h (List.mem_cons_of_mem _ hm)]
    simp [List.append_assoc]

theorem splitChars_join (sep : Char) (parts : List (List Char))
    (hne : parts ≠ []) (h : ∀ p ∈ parts, sep ∉ p) :
    splitCharsAux sep (joinChars sep parts) [] = parts := by
  induction parts with
  | nil => exact absurd rfl hne
  | cons p rest ih =>
    cases rest with
    | nil =>
      rw [show joinChars sep [p] = p from rfl]
      conv_lhs => rw [show (p : List Char) = p ++ [] from (List.append_nil p).symm]
      rw [splitCharsAux_append sep p [] [] (h p (List.mem_cons_self _ _))]
      simp [splitCharsAux]
    | cons q rest' =>
      rw [show joinChars sep (p :: q :: rest') =
            p ++ sep :: joinChars sep (q :: rest') from rfl]
      rw [splitCharsAux_append sep p _ [] (h p (List.mem_cons_self _ _))]
      simp only [splitCharsAux, if_pos rfl]
      rw [ih (by simp) fun r hr => h r (List.mem_cons_of_mem _ hr)]
      simp

/-- Splitting on the separator inverts joining on it, as long as no
part contains the separator (and there is at least one part). -/
theorem pySplit_pyJoin (sep : Char) (parts : List String) (hne : parts ≠ [])
    (h : ∀ p ∈ parts, sep ∉ p.toList) :
    pySplit sep (pyJoin sep parts) = parts := by
  unfold pySplit pyJoin
  rw [show (String.mk (joinChars sep (parts.map String.toList))).toList
        = joinChars sep (parts.map String.toList) from rfl]
  rw [splitChars_join sep _ (by simpa using hne) ?hmem]
  case hmem =>
    intro p hp
    simp only [List.mem_map] at hp
    obtain ⟨str, hstr, rfl⟩ := hp
    exact h str hstr
  rw [List.map_map]
  rw [show (String.mk ∘ String.toList) = id from funext fun s => rfl]
  rw [List.map_id]

/-- C8 (amended): loading what `save_game` produced restores the board
(as long as no cell text contains a comma — true of every real cell),
the current player and the game mode, but the in-memory `game_result`
and `gameover` fields keep their pre-load values: the persisted
`GameResult` only drives the UI (label and disabled buttons), so the
four persisted fields are *not* all replaced as a unit. -/
theorem C8_load_replaces_three_fields (s t : GameState)
    (h : ∀ row ∈ t.board, row ≠ [] ∧ ∀ c ∈ row, (',' : Char) ∉ c.toList) :
    ∃ s', load_game s (save_game t) = some s' ∧
      s'.board = t.board ∧ s'.current_player = t.current_player ∧
      s'.game_mode = t.game_mode ∧
      s'.game_result = s.game_result ∧ s'.gameover = s.gameover := by
  have hb : (t.board.map (pyJoin ',')).map (pySplit ',') = t.board := by
    rw [List.map_map]
    have h2 : t.board.map (pySplit ',' ∘ pyJoin ',') = t.board.map id :=
      List.map_congr_left fun row hrow =>
        pySplit_pyJoin ',' row (h row hrow).1 (h row hrow).2
    rw [h2, List.map_id]
  refine ⟨_, rfl, ?_, ?_, ?_, ?_, ?_⟩ <;> split <;> first | exact hb | rfl

theorem C8_load_replaces_three_fields_witness :
    ∃ s', load_game stO (save_game stFin) = some s' ∧
      s'.board = stFin.board ∧ s'.current_player = stFin.current_player ∧
      s'.game_mode = stFin.game_mode ∧
      s'.game_result = stO.game_result ∧ s'.gameover = stO.gameover :=
  C8_load_replaces_three_fields stO stFin (by decide)

/-- C8 (counterexample): loading a finished game's save into a fresh
session restores board, player and mode, but the in-memory
`game_result` and `gameover` stay at the pre-load values — they do not
equal the saved ones, so the persisted state is *not* reconstructed as
a four-field unit. -/
theorem C8_counterexample :
    ∃ s', load_game stO (save_game stFin) = some s' ∧
      s'.board = stFin.board ∧ s'.current_player = stFin.current_player ∧
      s'.game_mode = stFin.game_mode ∧
      s'.game_result ≠ stFin.game_result ∧ s'.gameover ≠ stFin.gameover := by
  refine ⟨_, rfl, ?_, ?_, ?_, ?_, ?_⟩ <;> decide

end TTT
